import Mathlib

/-!
Shallow embedding of `src/app.py` (IoT watering-system dashboard).

The dashboard stores sensor readings, watering schedules and pump-action
logs in a SQLite database, talks to an ESP8266 device over HTTP, and
renders a moisture gauge.  Each SQL table is modelled as a Lean list of
rows kept in insertion order (SQLite rowid / AUTOINCREMENT order); an SQL
`ORDER BY` is modelled with `List.mergeSort`; Python dictionary access
that can raise `KeyError` is modelled with `Option`; the network is
modelled as a function from the issued HTTP request to its outcome
(a status-code response, or a network-level failure caught by the bare
`except:` clause).
-/

namespace WateringSystem

/-! ### Moisture gauge / status classification (app.py lines 240-260) -/

/-- Display band of a moisture percentage. The gauge has no text labels;
the colored steps red / yellow / green correspond to the spec's
LOW / MODERATE / GOOD bands. -/
inductive Band
  | GOOD
  | MODERATE
  | LOW
deriving DecidableEq

/-- One colored background step of the plotly gauge. -/
structure GaugeStep where
  lo : Int
  hi : Int
  color : String
deriving DecidableEq

/-- The gauge steps exactly as written in `fig_gauge`:
`[{'range': [0, 30], 'color': "red"}, {'range': [30, 50], 'color': "yellow"},
{'range': [50, 100], 'color': "green"}]`. -/
def gaugeSteps : List GaugeStep :=
  [⟨0, 30, "red"⟩, ⟨30, 50, "yellow"⟩, ⟨50, 100, "green"⟩]

/-- Band of a moisture percent, read off the gauge steps: the red step
ends at 30 and the yellow step ends at 50 (boundary values belong to the
lower band, matching the spec's convention that the upper bound of a band
is inclusive). -/
def classify (p : Int) : Band :=
  if p ≤ 30 then .LOW
  else if p ≤ 50 then .MODERATE
  else .GOOD

/-- Color of a band, as used by the gauge steps. -/
def bandColor : Band → String
  | .LOW => "red"
  | .MODERATE => "yellow"
  | .GOOD => "green"

/-! ### Sensor data table (app.py lines 70-105) -/

/-- One row of the `sensor_data` table. `created_at` is the row's
`DEFAULT CURRENT_TIMESTAMP` insertion time, in seconds. -/
structure SensorRow where
  device_id : String
  timestamp : Int
  moisture_percent : Int
  moisture_raw : Int
  pump_state : Bool
  manual_mode : Bool
  dry_threshold : Int
  wet_threshold : Int
  wifi_rssi : Int
  free_heap : Int
  created_at : Int
deriving DecidableEq

/-- An incoming device payload: a Python dict whose fields may be absent.
`data['key']` on a missing key raises `KeyError`, modelled as `none`. -/
structure SensorPayload where
  device_id : Option String
  timestamp : Option Int
  moisture_percent : Option Int
  moisture_raw : Option Int
  pump_state : Option Bool
  manual_mode : Option Bool
  dry_threshold : Option Int
  wet_threshold : Option Int
  wifi_rssi : Option Int
  free_heap : Option Int
deriving DecidableEq

/-- The empty payload `{}`: every key is absent. -/
def emptyPayload : SensorPayload :=
  ⟨none, none, none, none, none, none, none, none, none, none⟩

/-- A payload with every field present. -/
def fullPayload (r : SensorRow) : SensorPayload :=
  ⟨some r.device_id, some r.timestamp, some r.moisture_percent, some r.moisture_raw,
   some r.pump_state, some r.manual_mode, some r.dry_threshold, some r.wet_threshold,
   some r.wifi_rssi, some r.free_heap⟩

/-- Embeds `insert_sensor_data(data)`: reads the ten fields with `data['...']`
(raising `KeyError`, i.e. `none`, if any is missing) and appends one row
to the `sensor_data` table. -/
def insert_sensor_data (table : List SensorRow) (data : SensorPayload)
    (created_at : Int) : Option (List SensorRow) := do
  let device_id ← data.device_id
  let timestamp ← data.timestamp
  let moisture_percent ← data.moisture_percent
  let moisture_raw ← data.moisture_raw
  let pump_state ← data.pump_state
  let manual_mode ← data.manual_mode
  let dry_threshold ← data.dry_threshold
  let wet_threshold ← data.wet_threshold
  let wifi_rssi ← data.wifi_rssi
  let free_heap ← data.free_heap
  pure (table ++ [⟨device_id, timestamp, moisture_percent, moisture_raw, pump_state,
    manual_mode, dry_threshold, wet_threshold, wifi_rssi, free_heap, created_at⟩])

/-- Comparison used by `ORDER BY created_at DESC`: newest first. -/
def createdDesc (a b : SensorRow) : Bool :=
  decide (b.created_at ≤ a.created_at)

/-- Embeds `get_recent_data(hours)`: `SELECT * FROM sensor_data WHERE created_at >=
datetime('now', '-hours hours') ORDER BY created_at DESC`. `now` is the
current time in seconds. -/
def get_recent_data (table : List SensorRow) (now : Int) (hours : Int) :
    List SensorRow :=
  (table.filter (fun r => decide (now - hours * 3600 ≤ r.created_at))).mergeSort
    createdDesc

/-! ### Schedules table (app.py lines 107-130, 304-348) -/

/-- One row of the `schedules` table; `id` is the AUTOINCREMENT primary
key. -/
structure ScheduleRow where
  id : Nat
  name : String
  hour : Nat
  minute : Nat
  duration : Int
  enabled : Bool
deriving DecidableEq

/-- Embeds `save_schedule(name, hour, minute, duration, enabled)`: inserts one
row; the duration is stored exactly as passed (the form supplies it from
a `number_input`, it is not derived from any end time). `next_id` is the
AUTOINCREMENT id assigned to the new row. -/
def save_schedule (table : List ScheduleRow) (next_id : Nat) (name : String)
    (hour minute : Nat) (duration : Int) (enabled : Bool) : List ScheduleRow :=
  table ++ [⟨next_id, name, hour, minute, duration, enabled⟩]

/-- Comparison used by `ORDER BY hour, minute`. -/
def scheduleLe (a b : ScheduleRow) : Bool :=
  decide (a.hour < b.hour ∨ (a.hour = b.hour ∧ a.minute ≤ b.minute))

/-- Embeds `get_schedules()`: `SELECT * FROM schedules ORDER BY hour, minute`. -/
def get_schedules (table : List ScheduleRow) : List ScheduleRow :=
  table.mergeSort scheduleLe

/-- Embeds `delete_schedule(schedule_id)`: `DELETE FROM schedules WHERE id = ?`.
Removes the rows whose stable `id` column equals the argument; deleting an
id that matches no row is a no-op, never an error. -/
def delete_schedule (table : List ScheduleRow) (schedule_id : Nat) :
    List ScheduleRow :=
  table.filter (fun s => s.id != schedule_id)

/-! ### Pump logs (app.py lines 132-142) -/

/-- One row of the `pump_logs` table. -/
structure PumpLog where
  action : String
  trigger_type : String
  moisture_level : Int
deriving DecidableEq

/-- Embeds `log_pump_action(action, trigger_type, moisture_level)`: appends one
row to the `pump_logs` table. -/
def log_pump_action (logs : List PumpLog) (action trigger_type : String)
    (moisture_level : Int) : List PumpLog :=
  logs ++ [⟨action, trigger_type, moisture_level⟩]

/-! ### ESP8266 communication (app.py lines 144-150, 167-181) -/

/-- Network-level failures caught by the bare `except:` clause of
`send_command_to_esp`. -/
inductive NetError
  | timeout
  | connectionRefused
  | unreachable
deriving DecidableEq

/-- Outcome of an HTTP call: a response carrying a status code, or a
network failure (an exception raised by `requests`). -/
inductive HttpOutcome
  | response (statusCode : Nat)
  | failure (e : NetError)
deriving DecidableEq

/-- HTTP request methods used by the dashboard. -/
inductive HttpMethod
  | GET
  | POST
deriving DecidableEq

/-- An HTTP request as issued by `requests.post(url, timeout=5)`. -/
structure HttpRequest where
  method : HttpMethod
  url : String
deriving DecidableEq

/-- The request `send_command_to_esp` issues:
`requests.post(f"http://(esp_ip)/api/(command)", timeout=5)`. -/
def esp_request (command : String) (esp_ip : String) : HttpRequest :=
  ⟨.POST, "http://" ++ esp_ip ++ "/api/" ++ command⟩

/-- Command string of the Pump ON button handler. -/
def pump_on_command : String := "pump/on"

/-- Command string of the Pump OFF button handler. -/
def pump_off_command : String := "pump/off"

/-- Embeds `send_command_to_esp(command, esp_ip)`: issues the POST request and
returns `response.status_code == 200`; any exception is swallowed by the
bare `except:` and turned into `False`. `net` is the environment mapping
the issued request to its outcome. -/
def send_command_to_esp (command : String) (esp_ip : String)
    (net : HttpRequest → HttpOutcome) : Bool :=
  match net (esp_request command esp_ip) with
  | .response sc => sc == 200
  | .failure _ => false

/-- A user-visible streamlit notice: `st.sidebar.success(...)` or
`st.sidebar.error(...)`. -/
inductive Notice
  | success (msg : String)
  | failureNote (msg : String)
deriving DecidableEq

/-- The Pump ON button handler: on a truthy `send_command_to_esp` result it
shows a success notice and logs the action; otherwise it shows an
error notice and leaves the logs untouched. -/
def pump_on_handler (esp_ip : String) (net : HttpRequest → HttpOutcome)
    (logs : List PumpLog) : List PumpLog × Notice :=
  if send_command_to_esp pump_on_command esp_ip net then
    (log_pump_action logs "ON" "Manual" 0, .success "Pump turned ON")
  else
    (logs, .failureNote "Failed to send command")

/-- The Pump OFF button handler, same shape as the ON handler. -/
def pump_off_handler (esp_ip : String) (net : HttpRequest → HttpOutcome)
    (logs : List PumpLog) : List PumpLog × Notice :=
  if send_command_to_esp pump_off_command esp_ip net then
    (log_pump_action logs "OFF" "Manual" 0, .success "Pump turned OFF")
  else
    (logs, .failureNote "Failed to send command")

/-! ### Concrete inputs used by counterexamples and witnesses -/

/-- A sample sensor row whose `timestamp` and `created_at` are `i`. -/
def sampleRow (i : Nat) : SensorRow :=
  ⟨"esp8266", i, 50, 500, false, false, 30, 50, -60, 20000, i⟩

/-- The payload carrying every field of `sampleRow i`. -/
def samplePayload (i : Nat) : SensorPayload := fullPayload (sampleRow i)

/-- The sensor table obtained by appending the readings `sampleRow 0`,
`sampleRow 1`, ..., `sampleRow 100` through `insert_sensor_data`
(101 appends in total). -/
def sampleTable101 : List SensorRow :=
  (List.range 101).foldl
    (fun t i => (insert_sensor_data t (samplePayload i) i).getD t) []

/-- A three-reading sensor table. -/
def sampleTable3 : List SensorRow := [sampleRow 0, sampleRow 1, sampleRow 2]

/-- A sample schedule row with id `i`, time 07:00, duration 5, enabled. -/
def sampleSchedule (i : Nat) : ScheduleRow := ⟨i, "Morning Watering", 7, 0, 5, true⟩

/-- A schedule table with three rows, ids 0, 1, 2. -/
def sampleSchedules3 : List ScheduleRow :=
  [sampleSchedule 0, sampleSchedule 1, sampleSchedule 2]

/-! ### C1: status classification bands -/

/-- C1 counterexample: the claim puts the MODERATE/GOOD boundary at 60
(`MODERATE iff 30 < p ≤ 60`, so `classify 60 = MODERATE`), but the gauge's
yellow step ends at 50, so the code classifies 60 as GOOD. -/
theorem classify_sixty_counterexample :
    classify 60 = Band.GOOD ∧ Band.GOOD ≠ Band.MODERATE := by decide

/-- C1 (amended): for every integer moisture percent `p`, the
classification maps `p` to exactly one of three bands with boundaries
GOOD iff p > 50, MODERATE iff 30 < p ≤ 50, LOW iff p ≤ 30; the boundary
inputs 30, 31, 50 and 51 classify as LOW, MODERATE, MODERATE and GOOD. -/
theorem classify_bands (p : Int) :
    (classify p = Band.GOOD ↔ 50 < p) ∧
    (classify p = Band.MODERATE ↔ 30 < p ∧ p ≤ 50) ∧
    (classify p = Band.LOW ↔ p ≤ 30) ∧
    classify 30 = Band.LOW ∧ classify 31 = Band.MODERATE ∧
    classify 50 = Band.MODERATE ∧ classify 51 = Band.GOOD := by
  refine ⟨?_, ?_, ?_, by decide, by decide, by decide, by decide⟩ <;>
    unfold classify <;> split_ifs <;> simp <;> omega

/-! ### C3 / C10: pump command result -/

/-- C3: the pump command operation reports success (returns `True`) if and
only if the HTTP response status code is 200; any other status code, and
any network failure, yields `False`. -/
theorem send_command_success_iff (command esp_ip : String)
    (net : HttpRequest → HttpOutcome) :
    send_command_to_esp command esp_ip net = true ↔
      net (esp_request command esp_ip) = HttpOutcome.response 200 := by
  unfold send_command_to_esp
  cases h : net (esp_request command esp_ip) <;> simp

/-- C10: the pump command operation is total: every network-level failure
raised by the HTTP call (timeout, unreachable host, connection refused) is
absorbed by the bare `except:` clause and returned as `False`; no
exception reaches the caller (the embedding is a total function). -/
theorem send_command_absorbs_failure (command esp_ip : String)
    (net : HttpRequest → HttpOutcome) (e : NetError)
    (h : net (esp_request command esp_ip) = HttpOutcome.failure e) :
    send_command_to_esp command esp_ip net = false := by
  unfold send_command_to_esp
  rw [h]

/-- Witness for C10: a timing-out network makes the pump command return
`False`. -/
theorem send_command_absorbs_failure_witness :
    (fun _ : HttpRequest => HttpOutcome.failure NetError.timeout)
        (esp_request pump_on_command "192.168.1.100")
      = HttpOutcome.failure NetError.timeout ∧
    send_command_to_esp pump_on_command "192.168.1.100"
      (fun _ => HttpOutcome.failure NetError.timeout) = false :=
  ⟨rfl, send_command_absorbs_failure pump_on_command "192.168.1.100"
    (fun _ => HttpOutcome.failure NetError.timeout) NetError.timeout rfl⟩

/-! ### C5: ingestion of device payloads -/

/-- C5 counterexample: ingesting the empty payload `{}` raises
`KeyError` on the first field access (modelled as `none`): no row with
defaulted values is stored, contradicting the claim that missing fields
default to 0 / OFF. -/
theorem insert_empty_payload_counterexample :
    insert_sensor_data [] emptyPayload 0 = none := rfl

set_option maxHeartbeats 1600000 in
/-- C5 (amended): ingestion succeeds if and only if every expected field
is present in the payload; a payload missing any field (in particular the
empty payload `{}`) fails the whole parse with `KeyError` instead of
defaulting the missing values. -/
theorem insert_sensor_data_requires_all_fields (table : List SensorRow)
    (data : SensorPayload) (created_at : Int) :
    (insert_sensor_data table data created_at).isSome = true ↔
      (data.device_id.isSome = true ∧ data.timestamp.isSome = true ∧
       data.moisture_percent.isSome = true ∧ data.moisture_raw.isSome = true ∧
       data.pump_state.isSome = true ∧ data.manual_mode.isSome = true ∧
       data.dry_threshold.isSome = true ∧ data.wet_threshold.isSome = true ∧
       data.wifi_rssi.isSome = true ∧ data.free_heap.isSome = true) := by
  obtain ⟨d1, d2, d3, d4, d5, d6, d7, d8, d9, d10⟩ := data
  unfold insert_sensor_data
  cases d1 <;> simp <;>
  cases d2 <;> simp <;>
  cases d3 <;> simp <;>
  cases d4 <;> simp <;>
  cases d5 <;> simp <;>
  cases d6 <;> simp <;>
  cases d7 <;> simp <;>
  cases d8 <;> simp <;>
  cases d9 <;> simp <;>
  cases d10 <;> simp

/-! ### C6: schedule duration -/

/-- C6 counterexample: the Add Schedule form has no end time; the stored
duration is the user-entered number (1-60 minutes). A schedule starting
at 07:00 can be stored with duration 42, which no pair of start/end times
of the claim's example determines. -/
theorem save_schedule_duration_counterexample :
    (save_schedule [] 1 "Morning Watering" 7 0 42 true).map ScheduleRow.duration
      = [42] ∧ (42 : Int) ≠ 5 := by decide

/-- C6 (amended): `save_schedule` stores the user-supplied duration (a
direct form input, not computed from an end time) unchanged, together with
the given name, hour, minute and enabled flag, by appending one row. -/
theorem save_schedule_stores_given_fields (table : List ScheduleRow)
    (next_id : Nat) (name : String) (hour minute : Nat) (duration : Int)
    (enabled : Bool) :
    (save_schedule table next_id name hour minute duration enabled).getLast?
      = some ⟨next_id, name, hour, minute, duration, enabled⟩ ∧
    (save_schedule table next_id name hour minute duration enabled).length
      = table.length + 1 := by
  constructor
  · simp [save_schedule]
  · simp [save_schedule]

/-! ### C7: shape of the pump command requests -/

/-- C7 counterexample: the pump ON command is sent with
`requests.post(f"http://(esp_ip)/api/pump/on")`: an HTTP POST, not a GET,
and to the path `/api/pump/on`, not `/pump_on`. -/
theorem pump_request_counterexample :
    (esp_request pump_on_command "192.168.1.100").method = HttpMethod.POST ∧
    HttpMethod.POST ≠ HttpMethod.GET ∧
    (esp_request pump_on_command "192.168.1.100").url
      = "http://192.168.1.100/api/pump/on" ∧
    "http://192.168.1.100/api/pump/on" ≠ "http://192.168.1.100/pump_on" := by
  refine ⟨rfl, by decide, rfl, by decide⟩

/-- C7 (amended): for every device address, the pump commands are HTTP
POST requests to `http://<ip>/api/pump/on` (for ON) and
`http://<ip>/api/pump/off` (for OFF); in particular the URL is never the
claimed `http://<ip>/pump_on` or `http://<ip>/pump_off`. -/
theorem pump_requests_are_post_api (esp_ip : String) :
    esp_request pump_on_command esp_ip
      = ⟨HttpMethod.POST, "http://" ++ esp_ip ++ "/api/pump/on"⟩ ∧
    esp_request pump_off_command esp_ip
      = ⟨HttpMethod.POST, "http://" ++ esp_ip ++ "/api/pump/off"⟩ ∧
    (esp_request pump_on_command esp_ip).url ≠ "http://" ++ esp_ip ++ "/pump_on" ∧
    (esp_request pump_off_command esp_ip).url ≠ "http://" ++ esp_ip ++ "/pump_off" := by
  have hOn : esp_request pump_on_command esp_ip
      = ⟨HttpMethod.POST, "http://" ++ esp_ip ++ "/api/pump/on"⟩ := by
    simp only [esp_request, pump_on_command]
    rw [String.append_assoc ("http://" ++ esp_ip) "/api/" "pump/on"]
    rfl
  have hOff : esp_request pump_off_command esp_ip
      = ⟨HttpMethod.POST, "http://" ++ esp_ip ++ "/api/pump/off"⟩ := by
    simp only [esp_request, pump_off_command]
    rw [String.append_assoc ("http://" ++ esp_ip) "/api/" "pump/off"]
    rfl
  refine ⟨hOn, hOff, ?_, ?_⟩
  · rw [hOn]
    intro h
    have h2 := congrArg String.length h
    simp only [String.length_append] at h2
    have l1 : "/api/pump/on".length = 12 := rfl
    have l2 : "/pump_on".length = 8 := rfl
    rw [l1, l2] at h2
    omega
  · rw [hOff]
    intro h
    have h2 := congrArg String.length h
    simp only [String.length_append] at h2
    have l1 : "/api/pump/off".length = 13 := rfl
    have l2 : "/pump_off".length = 9 := rfl
    rw [l1, l2] at h2
    omega

/-! ### C8: failed pump commands leave state unchanged -/

/-- C8: when a pump command fails (non-200 status or network failure, i.e.
`send_command_to_esp` returns `False`), the handler records no pump
action log entry, leaves the stored logs untouched, and surfaces the
failure as a user-visible error notice; the handler returns normally, so
the failure is not fatal to the session. -/
theorem pump_handlers_fail_preserve_state (esp_ip : String)
    (net : HttpRequest → HttpOutcome) (logs : List PumpLog)
    (hOn : send_command_to_esp pump_on_command esp_ip net = false)
    (hOff : send_command_to_esp pump_off_command esp_ip net = false) :
    pump_on_handler esp_ip net logs
        = (logs, Notice.failureNote "Failed to send command") ∧
    pump_off_handler esp_ip net logs
        = (logs, Notice.failureNote "Failed to send command") := by
  simp [pump_on_handler, pump_off_handler, hOn, hOff]

/-- Witness for C8: with a timing-out network, both pump handlers leave
the logs unchanged and show the error notice. -/
theorem pump_handlers_fail_preserve_state_witness :
    send_command_to_esp pump_on_command "192.168.1.100"
      (fun _ => HttpOutcome.failure NetError.timeout) = false ∧
    send_command_to_esp pump_off_command "192.168.1.100"
      (fun _ => HttpOutcome.failure NetError.timeout) = false ∧
    (pump_on_handler "192.168.1.100" (fun _ => HttpOutcome.failure NetError.timeout) []
        = ([], Notice.failureNote "Failed to send command") ∧
     pump_off_handler "192.168.1.100" (fun _ => HttpOutcome.failure NetError.timeout) []
        = ([], Notice.failureNote "Failed to send command")) :=
  ⟨rfl, rfl, pump_handlers_fail_preserve_state "192.168.1.100"
    (fun _ => HttpOutcome.failure NetError.timeout) [] rfl rfl⟩

/-! ### C9: schedule listing order -/

/-- Transitivity of `scheduleLe`. -/
theorem scheduleLe_trans (a b c : ScheduleRow) :
    scheduleLe a b → scheduleLe b c → scheduleLe a c := by
  simp only [scheduleLe, decide_eq_true_eq]
  omega

/-- Totality of `scheduleLe`. -/
theorem scheduleLe_total (a b : ScheduleRow) :
    scheduleLe a b || scheduleLe b a := by
  simp only [scheduleLe, Bool.or_eq_true, decide_eq_true_eq]
  omega

/-- C9: `get_schedules` returns a permutation of the stored schedule rows
(regardless of insertion order) that is sorted ascending by hour and,
within equal hours, by minute. -/
theorem get_schedules_sorted (table : List ScheduleRow) :
    (get_schedules table).Perm table ∧
    (get_schedules table).Pairwise
      (fun a b => a.hour < b.hour ∨ (a.hour = b.hour ∧ a.minute ≤ b.minute)) := by
  constructor
  · exact List.mergeSort_perm table scheduleLe
  · have h := List.sorted_mergeSort scheduleLe_trans scheduleLe_total table
    exact h.imp (fun hab => by simpa [scheduleLe] using hab)

/-! ### C4: schedule deletion -/

/-- C4 counterexample: on the three-row table with ids 0, 1, 2, calling
`delete_schedule 0` twice removes only the single row whose id is 0 (the
second call is a no-op), leaving two rows — not the two distinct entries
the positional-index claim predicts. -/
theorem delete_schedule_twice_counterexample :
    delete_schedule (delete_schedule sampleSchedules3 0) 0
        = [sampleSchedule 1, sampleSchedule 2] ∧
    (delete_schedule (delete_schedule sampleSchedules3 0) 0).length ≠ 1 := by
  decide

/-- C4 (amended): `delete_schedule` identifies its target by the stable
`id` column, not by positional index: it removes exactly the rows carrying
that id (never an error — an id matching no row deletes nothing), and it
is idempotent, so a second call with the same id never removes a second
distinct entry. -/
theorem delete_schedule_by_id (table : List ScheduleRow) (schedule_id : Nat) :
    delete_schedule (delete_schedule table schedule_id) schedule_id
        = delete_schedule table schedule_id ∧
    (delete_schedule table schedule_id).all
        (fun s => s.id != schedule_id) = true := by
  constructor
  · unfold delete_schedule
    rw [List.filter_filter]
    simp
  · rw [List.all_eq_true]
    intro s hs
    unfold delete_schedule at hs
    exact (List.mem_filter.mp hs).2

/-! ### C2: reading history returned for charting -/

set_option maxRecDepth 8000 in
/-- C2 counterexample: after 101 readings are appended (all of them inside
the 24-hour query window), `get_recent_data` returns all 101 of them; the
length is 101, not `min 101 100 = 100` — there is no 100-entry cap and no
FIFO eviction anywhere in the code. -/
theorem get_recent_data_no_cap_counterexample :
    (get_recent_data sampleTable101 100 24).length = 101 ∧
    (101 : Nat) ≠ min 101 100 := by
  constructor
  · unfold get_recent_data
    rw [(List.mergeSort_perm _ _).length_eq]
    decide
  · decide

/-- Transitivity of `createdDesc`. -/
theorem createdDesc_trans (a b c : SensorRow) :
    createdDesc a b → createdDesc b c → createdDesc a c := by
  simp only [createdDesc, decide_eq_true_eq]
  omega

/-- Totality of `createdDesc`. -/
theorem createdDesc_total (a b : SensorRow) :
    createdDesc a b || createdDesc b a := by
  simp only [createdDesc, Bool.or_eq_true, decide_eq_true_eq]
  omega

/-- C2 (amended): the history is not capped at 100: for every table of
appended readings that all lie inside the query window, `get_recent_data`
returns a permutation of all of them (length = N for every N), ordered by
`created_at` descending (newest first) rather than in insertion order. -/
theorem get_recent_data_all_in_window (table : List SensorRow) (now hours : Int)
    (h : ∀ r ∈ table, now - hours * 3600 ≤ r.created_at) :
    (get_recent_data table now hours).Perm table ∧
    (get_recent_data table now hours).length = table.length ∧
    (get_recent_data table now hours).Pairwise
      (fun a b => b.created_at ≤ a.created_at) := by
  have hf : table.filter (fun r => decide (now - hours * 3600 ≤ r.created_at))
      = table := by
    rw [List.filter_eq_self]
    intro a ha
    exact decide_eq_true (h a ha)
  unfold get_recent_data
  rw [hf]
  refine ⟨List.mergeSort_perm _ _, (List.mergeSort_perm _ _).length_eq, ?_⟩
  have hs := List.sorted_mergeSort createdDesc_trans createdDesc_total table
  exact hs.imp (fun hab => by simpa [createdDesc] using hab)

/-- Witness for C2 (amended): a three-reading table inside the window is
returned whole, newest first. -/
theorem get_recent_data_all_in_window_witness :
    (∀ r ∈ sampleTable3, (0 : Int) - 24 * 3600 ≤ r.created_at) ∧
    ((get_recent_data sampleTable3 0 24).Perm sampleTable3 ∧
     (get_recent_data sampleTable3 0 24).length = sampleTable3.length ∧
     (get_recent_data sampleTable3 0 24).Pairwise
       (fun a b => b.created_at ≤ a.created_at)) :=
  ⟨by decide, get_recent_data_all_in_window sampleTable3 0 24 (by decide)⟩

end WateringSystem
